import Mathlib

/-!
Verification of the AutomationPriorityMatrix prioritization engine.

Shallow embedding of the core model code:
* src/models/scoring.py       (ScoringSystem: factor catalog, calculate_score, get_priority_category)
* src/models/test_model.py    (TestModel)
* src/models/prioritization.py (TestPrioritizationModel: add_test, update_test,
  delete_one_test, delete_all_tests, get_sorted_tests, get_priority_tiers, import_tests)

Python dicts of factor scores become functions from the fixed factor-key
enumeration to `Option Int` (a missing key is `none`); the float score
arithmetic is modelled over `ℚ` (the claims under study never depend on
binary-float rounding artifacts); Python `round(x, 1)` is modelled by
round-half-up on `ℚ`, which agrees with Python banker rounding on every
value reachable here (exact ten-times-half values never arise from an
integer raw score over the catalog maximum of 70).
-/

namespace APM

/-- Factor keys of the scoring catalog, src/models/scoring.py lines 12-21. -/
inductive FactorKey
  | can_be_automated
  | regression_frequency
  | customer_impact
  | manual_effort
  | automation_complexity
  | existing_framework
  | angular_framework
  | repetitive
deriving DecidableEq

/-- The factor keys in the catalog order of src/models/scoring.py. -/
def FactorKey.all : List FactorKey :=
  [.can_be_automated, .regression_frequency, .customer_impact, .manual_effort,
   .automation_complexity, .existing_framework, .angular_framework, .repetitive]

theorem FactorKey.mem_all : ∀ k : FactorKey, k ∈ FactorKey.all := by
  intro k; cases k <;> simp [FactorKey.all]

/-- Factor weights, src/models/scoring.py lines 12-21. -/
def weight : FactorKey → Int
  | .can_be_automated => 0
  | .regression_frequency => 3
  | .customer_impact => 3
  | .manual_effort => 2
  | .automation_complexity => 2
  | .existing_framework => 2
  | .angular_framework => 1
  | .repetitive => 1

/-- Factor display names, src/models/scoring.py lines 12-21. -/
def displayName : FactorKey → String
  | .can_be_automated => "Can it be Automated"
  | .regression_frequency => "Regression Frequency"
  | .customer_impact => "Customer Impact"
  | .manual_effort => "Manual Test Effort"
  | .automation_complexity => "Automation Complexity"
  | .existing_framework => "Existing Framework"
  | .angular_framework => "Angular Framework"
  | .repetitive => "Repetitive"

/-- A Python scores dict: each known factor key is present (`some`) or absent (`none`). -/
abbrev Scores := FactorKey → Option Int

instance : DecidableEq Scores := fun f g =>
  decidable_of_iff (∀ k ∈ FactorKey.all, f k = g k)
    ⟨fun h => funext fun k => h k (FactorKey.mem_all k), fun h k _ => by rw [h]⟩

/-- The non-special factors iterated by calculate_score (the dict comprehension at
src/models/scoring.py lines 86-88 skips can_be_automated). -/
def nonAutoFactors : List FactorKey :=
  [.regression_frequency, .customer_impact, .manual_effort,
   .automation_complexity, .existing_framework, .angular_framework, .repetitive]

/-- Python round(x, 1) over ℚ: round to one decimal place.  Mathlib round is
half-up while Python rounds half to even, but a ten-times-half value never
arises from the inputs this model produces, so the two agree on them. -/
def roundTo1 (q : ℚ) : ℚ := ((round (10 * q) : ℤ) : ℚ) / 10

/-- ScoringSystem.calculate_score, src/models/scoring.py lines 70-106.
The yes_no_answers argument only feeds a placeholder that adds 0 bonus
points, so it is dropped here.  Factors absent from the scores dict
contribute 0 to the raw sum exactly as in the source generator expression. -/
def calculate_score (scores : Scores) : Int × ℚ :=
  if scores .can_be_automated = some 1 then (0, 0)
  else
    let raw : Int :=
      (nonAutoFactors.map (fun f =>
        match scores f with
        | some v => v * weight f
        | none => 0)).sum
    let maxRaw : Int := (nonAutoFactors.map (fun f => 5 * weight f)).sum
    (raw, roundTo1 ((raw : ℚ) / (maxRaw : ℚ) * 100))

/-- ScoringSystem.get_priority_category, src/models/scoring.py lines 108-133. -/
def get_priority_category (score : ℚ) (can_be_automated : Bool) : String :=
  if can_be_automated = false then "Can't Automate"
  else if score ≥ 90 then "Highest"
  else if score ≥ 80 then "High"
  else if score ≥ 60 then "Medium"
  else if score ≥ 40 then "Low"
  else "Lowest"

/-- A live test id: integers come from the repository counter, strings from an
imported "Test ID" field (import_tests stores the raw CSV value unchanged). -/
abbrev TestId := Int ⊕ String

/-- A stored test record (the dict produced by TestModel.to_dict and by
import_tests).  The source field `section` is named `sect` because `section`
is a Lean keyword.  `yes_no_answers` is `none` when the dict key is absent
(import_tests emits no such key) and `some l` when present. -/
structure Test where
  id : TestId
  name : String
  sect : String
  ticket_id : String
  description : String
  scores : Scores
  yes_no_answers : Option (List (String × Bool))
  raw_score : Int
  total_score : ℚ
  priority : String
deriving DecidableEq

/-- TestPrioritizationModel state: tests list, id counter, tracked sections
(src/models/prioritization.py lines 11-21). -/
structure ModelState where
  tests : List Test
  current_id : Int
  sections : Finset String
deriving DecidableEq

/-- The freshly constructed model: no tests, counter 1, no sections. -/
def initialState : ModelState := ⟨[], 1, ∅⟩

/-- Number of positional parameters of TestModel.__init__
(src/models/test_model.py line 9), excluding self: id, name, description,
ticket_id, scores, yes_no_answers.  There is no section parameter. -/
def testModelInitParams : List String :=
  ["id", "name", "description", "ticket_id", "scores", "yes_no_answers"]

/-- Positional arguments supplied to TestModel(...) by add_test
(src/models/prioritization.py line 55), excluding self. -/
def addTestConstructorArgs : List String :=
  ["current_id", "name", "section", "description", "ticket_id", "scores", "yes_no_answers"]

/-- A Python call raises TypeError when it supplies more positional arguments
than the callee declares parameters. -/
def pyCallRaisesTypeError (params args : List String) : Bool :=
  params.length < args.length

/-- add_test, src/models/prioritization.py lines 38-85, at the data level.
Modelled from the spec: the source line 55 constructs
TestModel(current_id, name, section, description, ticket_id, scores, yes_no_answers),
which raises TypeError because TestModel.__init__ in src/models/test_model.py
has no section parameter (see pyCallRaisesTypeError above); per spec sections 3
and 4.3 the Test record carries its section, so the constructor is modelled
here with the section stored and emitted by to_dict.  Every other step follows
the source: override check, scoring, the priority_category argument used only
when truthy, append, section registration, counter increment. -/
def add_test (s : ModelState) (name sec description ticket_id : String)
    (scores : Scores) (yes_no_answers : Option (List (String × Bool)))
    (priority_category : Option String) : Test × ModelState :=
  let rnp : Int × ℚ × String :=
    if scores .can_be_automated = some 1 then (0, 0, "Won't Automate")
    else
      let rn := calculate_score scores
      let computed := get_priority_category rn.2 true
      (rn.1, rn.2,
        match priority_category with
        | some p => if p = "" then computed else p
        | none => computed)
  let t : Test :=
    { id := Sum.inl s.current_id
      name := name
      sect := sec
      ticket_id := ticket_id
      description := description
      scores := scores
      yes_no_answers := some (yes_no_answers.getD [])
      raw_score := rnp.1
      total_score := rnp.2.1
      priority := rnp.2.2 }
  let sections2 := if sec ≠ "" then insert sec s.sections else s.sections
  (t, ⟨s.tests ++ [t], s.current_id + 1, sections2⟩)

/-- The in-place mutation update_test performs on the found test dict
(src/models/prioritization.py lines 109-134): recompute scores and priority,
replace all mutable fields.  The priority_category parameter of the source is
reassigned in both branches before use, so it does not appear. -/
def applyUpdate (name sec description ticket_id : String) (scores : Scores)
    (yes_no_answers : Option (List (String × Bool))) (t : Test) : Test :=
  let rnp : Int × ℚ × String :=
    if scores .can_be_automated = some 1 then (0, 0, "Won't Automate")
    else
      let rn := calculate_score scores
      (rn.1, rn.2, get_priority_category rn.2 true)
  { t with
    name := name
    description := description
    ticket_id := ticket_id
    sect := sec
    scores := scores
    yes_no_answers := some (yes_no_answers.getD [])
    raw_score := rnp.1
    total_score := rnp.2.1
    priority := rnp.2.2 }

/-- Replace the first list element satisfying p by its image under f,
returning the new list and, when found, the old and new element
(find_test_by_id returns a reference that update_test mutates in place). -/
def updateFirstBy (p : Test → Bool) (f : Test → Test) :
    List Test → List Test × Option (Test × Test)
  | [] => ([], none)
  | t :: rest =>
    if p t then (f t :: rest, some (t, f t))
    else
      let r := updateFirstBy p f rest
      (t :: r.1, r.2)

/-- update_test, src/models/prioritization.py lines 87-143: find the test by
id (first match), recompute and overwrite its fields in place, then maintain
the sections set: when the new section is non-empty and differs from the old
one, add it, and discard the old section only when it is non-empty and no
test in the (already mutated) list still carries it. -/
def update_test (s : ModelState) (test_id : TestId) (name sec description ticket_id : String)
    (scores : Scores) (yes_no_answers : Option (List (String × Bool))) :
    Option Test × ModelState :=
  let r := updateFirstBy (fun t => t.id = test_id) (applyUpdate name sec description ticket_id scores yes_no_answers) s.tests
  match r.2 with
  | none => (none, s)
  | some (old, newT) =>
    let old_section := old.sect
    let sections2 :=
      if sec ≠ "" ∧ sec ≠ old_section then
        let s2 := insert sec s.sections
        if old_section ≠ "" ∧ ∀ t ∈ r.1, t.sect ≠ old_section then
          s2.erase old_section
        else s2
      else s.sections
    (some newT, ⟨r.1, s.current_id, sections2⟩)

/-- Remove the first list element satisfying p, returning the remaining list
and the removed element when found. -/
def removeFirstBy (p : Test → Bool) : List Test → List Test × Option Test
  | [] => ([], none)
  | t :: rest =>
    if p t then (rest, some t)
    else
      let r := removeFirstBy p rest
      (t :: r.1, r.2)

/-- delete_one_test, src/models/prioritization.py lines 167-187: delete the
first test whose id matches, then discard its section from the tracked set
when it is non-empty and no remaining test carries it. -/
def delete_one_test (s : ModelState) (test_id : TestId) : Bool × ModelState :=
  let r := removeFirstBy (fun t => t.id = test_id) s.tests
  match r.2 with
  | none => (false, s)
  | some t =>
    let sections2 :=
      if t.sect ≠ "" ∧ ∀ u ∈ r.1, u.sect ≠ t.sect then
        s.sections.erase t.sect
      else s.sections
    (true, ⟨r.1, s.current_id, sections2⟩)

/-- delete_all_tests, src/models/prioritization.py lines 145-165: a no-op
returning false on an empty collection; otherwise clear the tests, reset the
id counter to 1, clear the sections, and return true. -/
def delete_all_tests (s : ModelState) : Bool × ModelState :=
  if s.tests.isEmpty then (false, s)
  else (true, ⟨[], 1, ∅⟩)

/-- The priority_order dict with default 999 used as first sort-key component,
src/models/prioritization.py line 236. -/
def priority_order (p : String) : Nat :=
  if p = "Highest" then 0
  else if p = "High" then 1
  else if p = "Medium" then 2
  else if p = "Low" then 3
  else if p = "Lowest" then 4
  else if p = "Won't Automate" then 5
  else 999

/-- The total preorder induced by the Python sort key
(priority_order[priority], -total_score): tier rank ascending, total score
descending inside a tier. -/
def testLE (a b : Test) : Prop :=
  priority_order a.priority < priority_order b.priority ∨
    (priority_order a.priority = priority_order b.priority ∧ b.total_score ≤ a.total_score)

instance : DecidableRel testLE := fun a b => by unfold testLE; infer_instance

/-- Stable insertion of x into a list sorted by testLE: x goes in front of the
first element it compares less-or-equal to.  For a total preorder this
reproduces the Python stable sort order. -/
def insertSorted (x : Test) : List Test → List Test
  | [] => [x]
  | y :: ys => if testLE x y then x :: y :: ys else y :: insertSorted x ys

/-- Stable sort by testLE, modelling sorted(..., key=lambda x: (priority_order, -total_score)). -/
def sortTests : List Test → List Test
  | [] => []
  | x :: xs => insertSorted x (sortTests xs)

/-- The section filtering step shared by get_sorted_tests and
get_priority_tiers (src/models/prioritization.py lines 229-233 and 262-266):
Python truthiness makes both a missing filter and an empty-string filter
select the whole list. -/
def filteredTests (s : ModelState) (section_filter : Option String) : List Test :=
  match section_filter with
  | some f => if f ≠ "" then s.tests.filter (fun t => t.sect = f) else s.tests
  | none => s.tests

/-- get_sorted_tests, src/models/prioritization.py lines 219-237. -/
def get_sorted_tests (s : ModelState) (section_filter : Option String) : List Test :=
  sortTests (filteredTests s section_filter)

/-- The dict returned by get_priority_tiers. -/
structure PriorityTiers where
  highest : List Test
  high : List Test
  medium : List Test
  low : List Test
  lowest : List Test
  wont_automate : List Test
  lowest_threshold : ℚ
  low_threshold : ℚ
  medium_threshold : ℚ
  high_threshold : ℚ
  highest_threshold : ℚ
  max_score : ℚ
deriving DecidableEq

/-- get_priority_tiers, src/models/prioritization.py lines 251-317: on an
empty filtered list return empty tiers and zero thresholds; otherwise
partition the sorted filtered tests by their stored priority string and
return the display threshold constants 85/70/55/40/20 over a max score of 100. -/
def get_priority_tiers (s : ModelState) (section_filter : Option String) : PriorityTiers :=
  let filtered := filteredTests s section_filter
  if filtered.isEmpty then
    ⟨[], [], [], [], [], [], 0, 0, 0, 0, 0, 0⟩
  else
    let sorted := get_sorted_tests s section_filter
    let max_score : ℚ := 100
    { highest := sorted.filter (fun t => t.priority = "Highest")
      high := sorted.filter (fun t => t.priority = "High")
      medium := sorted.filter (fun t => t.priority = "Medium")
      low := sorted.filter (fun t => t.priority = "Low")
      lowest := sorted.filter (fun t => t.priority = "Lowest")
      wont_automate := sorted.filter (fun t => t.priority = "Won't Automate")
      lowest_threshold := max_score * 0.20
      low_threshold := max_score * 0.40
      medium_threshold := max_score * 0.55
      high_threshold := max_score * 0.70
      highest_threshold := max_score * 0.85
      max_score := max_score }

/-- A raw import record: an ordered string-keyed map of string values, one
per CSV row (spec section 6: the engine consumes already-parsed rows). -/
abbrev Record := List (String × String)

/-- Python dict.get on a record: the value of the first matching key. -/
def recGet : Record → String → Option String
  | [], _ => none
  | (k, v) :: rest, key => if k = key then some v else recGet rest key

/-- The digits of a decimal numeral, as a value. -/
def parseDigits (cs : List Char) : Option Nat :=
  if cs ≠ [] ∧ cs.all Char.isDigit then
    some (cs.foldl (fun acc c => 10 * acc + (c.toNat - 48)) 0)
  else none

/-- Surrounding-whitespace strip over the character list (String.trim is
modelled at the character level). -/
def pyStrip (cs : List Char) : List Char :=
  ((cs.dropWhile Char.isWhitespace).reverse.dropWhile Char.isWhitespace).reverse

/-- Python int(str) on the string inputs relevant here: optional surrounding
whitespace, an optional sign, then decimal digits; anything else raises
ValueError (modelled as none).  Exotic literal forms such as underscore
grouping are not modelled; no claim depends on them. -/
def pyInt (str : String) : Option Int :=
  match pyStrip str.data with
  | '-' :: rest => (parseDigits rest).map (fun n => -(n : Int))
  | '+' :: rest => (parseDigits rest).map (fun n => (n : Int))
  | cs => (parseDigits cs).map (fun n => (n : Int))

/-- The import default for a factor score, src/models/prioritization.py
lines 346-356: 5 (Yes) for can_be_automated, 3 (medium) otherwise. -/
def importDefault (k : FactorKey) : Int :=
  if k = FactorKey.can_be_automated then 5 else 3

/-- Score resolution of import_tests, src/models/prioritization.py lines
338-356: for every known factor, look its display name up in the record and
parse an integer; a missing field or a failed parse falls back to the
default.  Every factor key ends up present in the scores dict. -/
def importScores (data : Record) : Scores := fun k =>
  some (match recGet data (displayName k) with
        | some v =>
          match pyInt v with
          | some n => n
          | none => importDefault k
        | none => importDefault k)

/-- int(test_id) at src/models/prioritization.py line 404: an id created from
the counter is already an int; an imported string id is parsed. -/
def idAsInt : TestId → Option Int
  | Sum.inl n => some n
  | Sum.inr v => pyInt v

/-- The test dict built for one raw record by import_tests,
src/models/prioritization.py lines 336-397.  cid is the model's current_id,
which stays fixed for the whole import call (it is only reassigned after the
loop). -/
def recordToTest (cid : Int) (data : Record) : Test :=
  let scores := importScores data
  let rnp : Int × ℚ × String :=
    if scores .can_be_automated = some 1 then (0, 0, "Won't Automate")
    else
      let rn := calculate_score scores
      (rn.1, rn.2, get_priority_category rn.2 true)
  let test_id : TestId :=
    match recGet data "Test ID" with
    | some v => Sum.inr v
    | none => Sum.inl cid
  let description0 := (recGet data "Description").getD ""
  let description :=
    if description0.data.map Char.toLower = "nan".data then "" else description0
  let sec0 := (recGet data "Section").getD ""
  let sec := if sec0 ≠ "" ∧ sec0 ≠ "nan" then sec0 else ""
  { id := test_id
    name := (recGet data "Test Name").getD ""
    sect := sec
    ticket_id := (recGet data "Ticket ID").getD ""
    description := description
    scores := scores
    yes_no_answers := none
    raw_score := rnp.1
    total_score := roundTo1 rnp.2.1
    priority := rnp.2.2 }

/-- One iteration of the import loop over (tests, sections, max_id):
append the built test, register a non-empty non-"nan" section, and advance
the running max-seen id when the new id parses as an integer at least as
large. -/
def importStep (cid : Int) (st : List Test × Finset String × Int) (data : Record) :
    List Test × Finset String × Int :=
  let t := recordToTest cid data
  let sec0 := (recGet data "Section").getD ""
  let sections2 :=
    if sec0 ≠ "" ∧ sec0 ≠ "nan" then insert sec0 st.2.1 else st.2.1
  let max2 :=
    match idAsInt t.id with
    | some n => if n ≥ st.2.2 then n + 1 else st.2.2
    | none => st.2.2
  (st.1 ++ [t], sections2, max2)

/-- import_tests, src/models/prioritization.py lines 319-412: optionally clear
tests and sections, fold the import loop over the records with max_id seeded
from (and current_id fixed at) the entry counter value, store the final
max_id as the new counter, and return the raw record count. -/
def import_tests (s : ModelState) (tests_data : List Record) (replace : Bool) :
    Nat × ModelState :=
  let tests0 := if replace then [] else s.tests
  let sections0 := if replace then (∅ : Finset String) else s.sections
  let r := tests_data.foldl (importStep s.current_id) (tests0, sections0, s.current_id)
  (tests_data.length, ⟨r.1, r.2.2, r.2.1⟩)

/-- A CRUD operation on the repository (the operations quantified over by the
invariant claims; import_tests is exercised separately). -/
inductive Op
  | add : String → String → String → String → Scores →
      Option (List (String × Bool)) → Option String → Op
  | update : TestId → String → String → String → String → Scores →
      Option (List (String × Bool)) → Op
  | deleteOne : TestId → Op
  | deleteAll : Op

/-- Apply one CRUD operation to the model state. -/
def applyOp (s : ModelState) : Op → ModelState
  | .add n sec d tk sc yns pc => (add_test s n sec d tk sc yns pc).2
  | .update tid n sec d tk sc yns => (update_test s tid n sec d tk sc yns).2
  | .deleteOne tid => (delete_one_test s tid).2
  | .deleteAll => (delete_all_tests s).2

/-- Run a sequence of CRUD operations from the fresh model. -/
def runOps (ops : List Op) : ModelState := ops.foldl applyOp initialState

/-- Every non-empty section of a live test is tracked in the sections set
(one direction of the spec sections invariant). -/
def sectionsSuperset (s : ModelState) : Prop :=
  ∀ t ∈ s.tests, t.sect ≠ "" → t.sect ∈ s.sections

instance : DecidablePred sectionsSuperset := fun s => by
  unfold sectionsSuperset; infer_instance

/-- Live test ids are pairwise distinct. -/
def idsNodup (s : ModelState) : Prop := (s.tests.map Test.id).Nodup

/-- Every live test id is an integer id strictly below the counter (the
strengthened invariant that makes add_test id-fresh). -/
def idsBelowCounter (s : ModelState) : Prop :=
  ∀ t ∈ s.tests, ∃ n, t.id = Sum.inl n ∧ n < s.current_id

theorem applyUpdate_id (name sec d tk : String) (sc : Scores)
    (yns : Option (List (String × Bool))) (t : Test) :
    (applyUpdate name sec d tk sc yns t).id = t.id := rfl

theorem applyUpdate_sect (name sec d tk : String) (sc : Scores)
    (yns : Option (List (String × Bool))) (t : Test) :
    (applyUpdate name sec d tk sc yns t).sect = sec := rfl

theorem updateFirstBy_mem {p : Test → Bool} {f : Test → Test} {l : List Test} {u : Test}
    (h : u ∈ (updateFirstBy p f l).1) : u ∈ l ∨ ∃ t ∈ l, u = f t := by
  induction l with
  | nil => simp [updateFirstBy] at h
  | cons t rest ih =>
    by_cases hp : p t
    · simp [updateFirstBy, hp] at h
      rcases h with h | h
      · exact Or.inr ⟨t, List.mem_cons_self t rest, h⟩
      · exact Or.inl (List.mem_cons_of_mem _ h)
    · simp [updateFirstBy, hp] at h
      rcases h with h | h
      · exact Or.inl (h ▸ List.mem_cons_self t rest)
      · rcases ih h with h' | ⟨t', ht', hu⟩
        · exact Or.inl (List.mem_cons_of_mem _ h')
        · exact Or.inr ⟨t', List.mem_cons_of_mem _ ht', hu⟩

theorem updateFirstBy_found {p : Test → Bool} {f : Test → Test} {l : List Test}
    {a b : Test} (h : (updateFirstBy p f l).2 = some (a, b)) :
    a ∈ l ∧ b = f a ∧ p a = true := by
  induction l with
  | nil => simp [updateFirstBy] at h
  | cons t rest ih =>
    by_cases hp : p t
    · simp [updateFirstBy, hp] at h
      exact ⟨h.1 ▸ List.mem_cons_self t rest, by rw [← h.1, h.2], h.1 ▸ hp⟩
    · simp [updateFirstBy, hp] at h
      rcases ih h with ⟨ha, hb, hpa⟩
      exact ⟨List.mem_cons_of_mem _ ha, hb, hpa⟩

theorem updateFirstBy_map_id (p : Test → Bool) (f : Test → Test) (l : List Test)
    (hf : ∀ t, (f t).id = t.id) :
    (updateFirstBy p f l).1.map Test.id = l.map Test.id := by
  induction l with
  | nil => simp [updateFirstBy]
  | cons t rest ih =>
    by_cases hp : p t
    · simp [updateFirstBy, hp, hf]
    · simp [updateFirstBy, hp, ih]

theorem removeFirstBy_sublist (p : Test → Bool) (l : List Test) :
    (removeFirstBy p l).1.Sublist l := by
  induction l with
  | nil => simp [removeFirstBy]
  | cons t rest ih =>
    by_cases hp : p t
    · simp only [removeFirstBy, hp, if_pos]
      exact (List.sublist_cons_self t rest)
    · simp only [removeFirstBy, hp, if_neg, Bool.false_eq_true, not_false_iff]
      exact List.Sublist.cons₂ t ih

theorem sectionsSuperset_add (s : ModelState) (n sec d tk : String) (sc : Scores)
    (yns : Option (List (String × Bool))) (pc : Option String)
    (h : sectionsSuperset s) : sectionsSuperset (add_test s n sec d tk sc yns pc).2 := by
  intro u hu hne
  simp only [add_test, List.mem_append, List.mem_singleton] at hu
  rcases hu with hu | hu
  · have := h u hu hne
    by_cases hsec : sec = ""
    · simpa [add_test, hsec] using this
    · simpa [add_test, hsec] using Finset.mem_insert_of_mem this
  · have husec : u.sect = sec := by rw [hu]
    have hsec : sec ≠ "" := husec ▸ hne
    rw [husec]
    simp [add_test, hsec]

theorem sectionsSuperset_update (s : ModelState) (tid : TestId)
    (n sec d tk : String) (sc : Scores) (yns : Option (List (String × Bool)))
    (h : sectionsSuperset s) :
    sectionsSuperset (update_test s tid n sec d tk sc yns).2 := by
  unfold update_test
  rcases hr : (updateFirstBy (fun t => t.id = tid) (applyUpdate n sec d tk sc yns) s.tests).2 with _ | ⟨old, newT⟩
  · simpa [hr] using h
  · simp only [hr]
    intro u hu hne
    simp only at hu
    have hold : old ∈ s.tests ∧ newT = applyUpdate n sec d tk sc yns old ∧ _ :=
      updateFirstBy_found hr
    rcases updateFirstBy_mem hu with humem | ⟨t', _, hut⟩
    · -- u is an untouched element of the original list
      have hmem : u.sect ∈ s.sections := h u humem hne
      by_cases hc1 : sec ≠ "" ∧ sec ≠ old.sect
      · by_cases hc2 : old.sect ≠ "" ∧ ∀ t ∈ (updateFirstBy (fun t => t.id = tid) (applyUpdate n sec d tk sc yns) s.tests).1, t.sect ≠ old.sect
        · have hune : u.sect ≠ old.sect := hc2.2 u hu
          rw [if_pos hc1, if_pos hc2]
          exact Finset.mem_erase.mpr ⟨hune, Finset.mem_insert_of_mem hmem⟩
        · rw [if_pos hc1, if_neg hc2]
          exact Finset.mem_insert_of_mem hmem
      · simpa [hc1] using hmem
    · -- u is the updated test: its section is the new one
      have husec : u.sect = sec := by rw [hut, applyUpdate_sect]
      have hsec : sec ≠ "" := husec ▸ hne
      rw [husec]
      by_cases hc1' : sec = old.sect
      · -- no sections change; the old test already contributed sec
        have : old.sect ∈ s.sections := h old hold.1 (hc1' ▸ hsec)
        simpa [hsec, hc1'] using hc1' ▸ this
      · have hc1 : sec ≠ "" ∧ sec ≠ old.sect := ⟨hsec, hc1'⟩
        by_cases hc2 : old.sect ≠ "" ∧ ∀ t ∈ (updateFirstBy (fun t => t.id = tid) (applyUpdate n sec d tk sc yns) s.tests).1, t.sect ≠ old.sect
        · rw [if_pos hc1, if_pos hc2]
          exact Finset.mem_erase.mpr ⟨hc1', Finset.mem_insert_self _ _⟩
        · rw [if_pos hc1, if_neg hc2]
          exact Finset.mem_insert_self _ _

theorem sectionsSuperset_deleteOne (s : ModelState) (tid : TestId)
    (h : sectionsSuperset s) : sectionsSuperset (delete_one_test s tid).2 := by
  unfold delete_one_test
  rcases hr : (removeFirstBy (fun t => t.id = tid) s.tests).2 with _ | t
  · simpa [hr] using h
  · simp only [hr]
    intro u hu hne
    simp only at hu
    have humem : u ∈ s.tests := (removeFirstBy_sublist _ s.tests).mem hu
    have hmem : u.sect ∈ s.sections := h u humem hne
    by_cases hc : t.sect ≠ "" ∧ ∀ v ∈ (removeFirstBy (fun t => t.id = tid) s.tests).1, v.sect ≠ t.sect
    · have hune : u.sect ≠ t.sect := hc.2 u hu
      rw [if_pos hc]
      exact Finset.mem_erase.mpr ⟨hune, hmem⟩
    · simpa [hc] using hmem

theorem sectionsSuperset_deleteAll (s : ModelState)
    (h : sectionsSuperset s) : sectionsSuperset (delete_all_tests s).2 := by
  unfold delete_all_tests
  by_cases he : s.tests.isEmpty
  · simpa [he] using h
  · intro u hu
    simp [he] at hu

theorem sectionsSuperset_applyOp (s : ModelState) (op : Op)
    (h : sectionsSuperset s) : sectionsSuperset (applyOp s op) := by
  cases op with
  | add n sec d tk sc yns pc => exact sectionsSuperset_add s n sec d tk sc yns pc h
  | update tid n sec d tk sc yns => exact sectionsSuperset_update s tid n sec d tk sc yns h
  | deleteOne tid => exact sectionsSuperset_deleteOne s tid h
  | deleteAll => exact sectionsSuperset_deleteAll s h

theorem sectionsSuperset_runOps (ops : List Op) : sectionsSuperset (runOps ops) := by
  have hgen : ∀ (l : List Op) (s : ModelState), sectionsSuperset s →
      sectionsSuperset (l.foldl applyOp s) := by
    intro l
    induction l with
    | nil => intro s hs; exact hs
    | cons op rest ih =>
      intro s hs
      exact ih (applyOp s op) (sectionsSuperset_applyOp s op hs)
  exact hgen ops initialState (by intro t ht; simp [initialState] at ht)

/-- The combined id invariant: distinct ids that are all integer ids below
the counter. -/
def idInv (s : ModelState) : Prop := idsNodup s ∧ idsBelowCounter s

theorem idInv_add (s : ModelState) (n sec d tk : String) (sc : Scores)
    (yns : Option (List (String × Bool))) (pc : Option String)
    (h : idInv s) : idInv (add_test s n sec d tk sc yns pc).2 := by
  obtain ⟨hnd, hlt⟩ := h
  constructor
  · unfold idsNodup at hnd ⊢
    simp only [add_test, List.map_append, List.map_cons, List.map_nil]
    rw [List.nodup_append]
    refine ⟨hnd, List.nodup_singleton _, ?_⟩
    intro x hx hx1
    simp only [List.mem_singleton] at hx1
    rcases List.mem_map.mp hx with ⟨t, ht, hid⟩
    rcases hlt t ht with ⟨m, hm, hmlt⟩
    have hinj : (Sum.inl m : TestId) = Sum.inl s.current_id := by
      rw [← hm, hid, hx1]
    have : m = s.current_id := Sum.inl.inj hinj
    omega
  · intro t ht
    simp only [add_test, List.mem_append, List.mem_singleton] at ht
    rcases ht with ht | ht
    · rcases hlt t ht with ⟨m, hm, hmlt⟩
      exact ⟨m, hm, by simp only [add_test]; omega⟩
    · exact ⟨s.current_id, by rw [ht], by simp only [add_test]; omega⟩

theorem idInv_update (s : ModelState) (tid : TestId) (n sec d tk : String)
    (sc : Scores) (yns : Option (List (String × Bool)))
    (h : idInv s) : idInv (update_test s tid n sec d tk sc yns).2 := by
  obtain ⟨hnd, hlt⟩ := h
  unfold update_test
  rcases hr : (updateFirstBy (fun t => t.id = tid) (applyUpdate n sec d tk sc yns) s.tests).2 with _ | ⟨old, newT⟩
  · simp only [hr]
    exact ⟨hnd, hlt⟩
  · simp only [hr]
    constructor
    · unfold idsNodup
      simp only []
      rw [updateFirstBy_map_id _ (applyUpdate n sec d tk sc yns) s.tests (fun t => rfl)]
      exact hnd
    · intro t ht
      simp only at ht
      rcases updateFirstBy_mem ht with hmem | ⟨t0, ht0, hteq⟩
      · rcases hlt t hmem with ⟨m, hm, hmlt⟩
        exact ⟨m, hm, hmlt⟩
      · rcases hlt t0 ht0 with ⟨m, hm, hmlt⟩
        exact ⟨m, by rw [hteq, applyUpdate_id, hm], hmlt⟩

theorem idInv_deleteOne (s : ModelState) (tid : TestId)
    (h : idInv s) : idInv (delete_one_test s tid).2 := by
  obtain ⟨hnd, hlt⟩ := h
  unfold delete_one_test
  rcases hr : (removeFirstBy (fun t => t.id = tid) s.tests).2 with _ | t
  · simp only [hr]
    exact ⟨hnd, hlt⟩
  · simp only [hr]
    constructor
    · exact ((removeFirstBy_sublist _ s.tests).map Test.id).nodup hnd
    · intro u hu
      exact hlt u ((removeFirstBy_sublist _ s.tests).mem hu)

theorem idInv_deleteAll (s : ModelState) (h : idInv s) :
    idInv (delete_all_tests s).2 := by
  unfold delete_all_tests
  by_cases he : s.tests.isEmpty
  · simpa [he] using h
  · rw [if_neg he]
    exact ⟨List.nodup_nil, by intro t ht; simp at ht⟩

theorem idInv_applyOp (s : ModelState) (op : Op) (h : idInv s) :
    idInv (applyOp s op) := by
  cases op with
  | add n sec d tk sc yns pc => exact idInv_add s n sec d tk sc yns pc h
  | update tid n sec d tk sc yns => exact idInv_update s tid n sec d tk sc yns h
  | deleteOne tid => exact idInv_deleteOne s tid h
  | deleteAll => exact idInv_deleteAll s h

theorem idInv_runOps (ops : List Op) : idInv (runOps ops) := by
  have hgen : ∀ (l : List Op) (s : ModelState), idInv s → idInv (l.foldl applyOp s) := by
    intro l
    induction l with
    | nil => intro s hs; exact hs
    | cons op rest ih => intro s hs; exact ih (applyOp s op) (idInv_applyOp s op hs)
  refine hgen ops initialState ⟨List.nodup_nil, ?_⟩
  intro t ht; simp [initialState] at ht

theorem testLE_total (a b : Test) : testLE a b ∨ testLE b a := by
  unfold testLE
  rcases Nat.lt_trichotomy (priority_order a.priority) (priority_order b.priority) with h | h | h
  · exact Or.inl (Or.inl h)
  · rcases le_total b.total_score a.total_score with hs | hs
    · exact Or.inl (Or.inr ⟨h, hs⟩)
    · exact Or.inr (Or.inr ⟨h.symm, hs⟩)
  · exact Or.inr (Or.inl h)

theorem testLE_trans (a b c : Test) (hab : testLE a b) (hbc : testLE b c) :
    testLE a c := by
  unfold testLE at hab hbc ⊢
  rcases hab with h1 | ⟨h1, h1s⟩
  · rcases hbc with h2 | ⟨h2, _⟩
    · exact Or.inl (h1.trans h2)
    · exact Or.inl (h2 ▸ h1)
  · rcases hbc with h2 | ⟨h2, h2s⟩
    · exact Or.inl (h1 ▸ h2)
    · exact Or.inr ⟨h1.trans h2, h2s.trans h1s⟩

theorem insertSorted_perm (x : Test) (l : List Test) :
    (insertSorted x l).Perm (x :: l) := by
  induction l with
  | nil => simp [insertSorted]
  | cons y ys ih =>
    by_cases h : testLE x y
    · simp [insertSorted, h]
    · simp only [insertSorted, h, if_neg, not_false_iff]
      exact (ih.cons y).trans (List.Perm.swap x y ys)

theorem sortTests_perm (l : List Test) : (sortTests l).Perm l := by
  induction l with
  | nil => simp [sortTests]
  | cons x xs ih =>
    exact (insertSorted_perm x (sortTests xs)).trans (ih.cons x)

theorem mem_insertSorted {a x : Test} {l : List Test}
    (h : a ∈ insertSorted x l) : a = x ∨ a ∈ l := by
  induction l with
  | nil => simpa [insertSorted] using h
  | cons y ys ih =>
    by_cases hle : testLE x y
    · simp only [insertSorted, hle, if_pos] at h
      simpa using h
    · simp only [insertSorted, hle, if_neg, not_false_iff, List.mem_cons] at h
      rcases h with h | h
      · exact Or.inr (by simp [h])
      · rcases ih h with h' | h'
        · exact Or.inl h'
        · exact Or.inr (by simp [h'])

theorem insertSorted_pairwise (x : Test) (l : List Test)
    (h : l.Pairwise testLE) : (insertSorted x l).Pairwise testLE := by
  induction l with
  | nil => simp [insertSorted]
  | cons y ys ih =>
    rcases List.pairwise_cons.mp h with ⟨hy, hys⟩
    by_cases hle : testLE x y
    · simp only [insertSorted, hle, if_pos]
      refine List.pairwise_cons.mpr ⟨?_, h⟩
      intro b hb
      rcases hb with _ | hb
      · exact hle
      · exact testLE_trans x y b hle (hy b (by assumption))
    · simp only [insertSorted, hle, if_neg, not_false_iff]
      refine List.pairwise_cons.mpr ⟨?_, ih hys⟩
      intro b hb
      rcases mem_insertSorted hb with hb' | hb'
      · rcases testLE_total x y with hxy | hyx
        · exact absurd hxy hle
        · exact hb' ▸ hyx
      · exact hy b hb'

theorem sortTests_pairwise (l : List Test) : (sortTests l).Pairwise testLE := by
  induction l with
  | nil => simp [sortTests]
  | cons x xs ih => exact insertSorted_pairwise x (sortTests xs) ih

/-- The claim C7 comparison view of a stored test: every field the claim
compares except the id. -/
def testContent (t : Test) :
    String × String × String × String × List (Option Int) × Int × ℚ × String :=
  (t.name, t.sect, t.description, t.ticket_id, FactorKey.all.map t.scores,
   t.raw_score, t.total_score, t.priority)

theorem import_fold_tests (records : List Record) (cid : Int)
    (acc : List Test × Finset String × Int) :
    (records.foldl (importStep cid) acc).1 = acc.1 ++ records.map (recordToTest cid) := by
  induction records generalizing acc with
  | nil => simp
  | cons r rs ih =>
    simp only [List.foldl_cons, List.map_cons]
    rw [ih]
    simp [importStep, List.append_assoc]

theorem import_fold_max_mono (records : List Record) (cid : Int)
    (acc : List Test × Finset String × Int) :
    acc.2.2 ≤ (records.foldl (importStep cid) acc).2.2 := by
  induction records generalizing acc with
  | nil => simp
  | cons r rs ih =>
    simp only [List.foldl_cons]
    refine le_trans ?_ (ih (importStep cid acc r))
    unfold importStep
    rcases h : idAsInt (recordToTest cid r).id with _ | n
    · simp [h]
    · simp only [h]
      show acc.2.2 ≤ if n ≥ acc.2.2 then n + 1 else acc.2.2
      split
      next hc => omega
      next hc => omega

theorem import_fold_sections (records : List Record) (cid cid2 : Int)
    (acc acc2 : List Test × Finset String × Int) (h : acc.2.1 = acc2.2.1) :
    (records.foldl (importStep cid) acc).2.1 = (records.foldl (importStep cid2) acc2).2.1 := by
  induction records generalizing acc acc2 with
  | nil => simpa using h
  | cons r rs ih =>
    simp only [List.foldl_cons]
    refine ih (importStep cid acc r) (importStep cid2 acc2 r) ?_
    simp only [importStep, h]

theorem import_tests_replace_tests (s : ModelState) (records : List Record) :
    (import_tests s records true).2.tests = records.map (recordToTest s.current_id) := by
  unfold import_tests
  simp [import_fold_tests]

theorem import_tests_count (s : ModelState) (records : List Record) (b : Bool) :
    (import_tests s records b).1 = records.length := rfl

theorem import_tests_tests_length (s : ModelState) (records : List Record) (b : Bool) :
    (import_tests s records b).2.tests.length =
      (if b then 0 else s.tests.length) + records.length := by
  unfold import_tests
  cases b <;> simp [import_fold_tests]

theorem import_tests_counter_mono (s : ModelState) (records : List Record) (b : Bool) :
    s.current_id ≤ (import_tests s records b).2.current_id := by
  unfold import_tests
  simpa using import_fold_max_mono records s.current_id
    (if b then [] else s.tests, if b then (∅ : Finset String) else s.sections, s.current_id)

theorem recordToTest_content (c c2 : Int) (r : Record) :
    testContent (recordToTest c r) = testContent (recordToTest c2 r) := rfl

theorem recordToTest_id_of_testID (c : Int) (r : Record) (v : String)
    (h : recGet r "Test ID" = some v) : (recordToTest c r).id = Sum.inr v := by
  simp [recordToTest, h]

theorem recordToTest_indep (c c2 : Int) (r : Record) (v : String)
    (h : recGet r "Test ID" = some v) : recordToTest c r = recordToTest c2 r := by
  unfold recordToTest
  rw [h]

/-- A concrete scores dict: cannot be automated (1), every other factor 5. -/
def scoresNo5 : Scores :=
  fun k => if k = FactorKey.can_be_automated then some 1 else some 5

/-- A concrete scores dict: automatable (5), every other factor 3. -/
def scoresYes3 : Scores :=
  fun k => if k = FactorKey.can_be_automated then some 5 else some 3

/-- C1.  The claim says add_test succeeds for every input without raising; in
the source it never succeeds: src/models/prioritization.py line 55 passes
seven positional arguments to TestModel.__init__, which declares six
(src/models/test_model.py line 9 has no section parameter), so every call
raises TypeError before any state is touched. -/
theorem C1_addTest_raises_TypeError :
    pyCallRaisesTypeError testModelInitParams addTestConstructorArgs = true := rfl

/-- C3 counterexample.  The claim says classify(X, false) is the string
Wont-Automate for every X; the code returns the string Cant-Automate on the
concrete score 50 (and every other score). -/
theorem C3_counterexample : get_priority_category 50 false ≠ "Won't Automate" := by
  unfold get_priority_category
  norm_num
  decide

/-- C3 amended.  Boundary exactness holds: classify(90, true) = Highest,
classify(89.9, true) = High, classify(39.9, true) = Lowest; and for every
score X, classify(X, false) is the string Cant-Automate (the score is
ignored when the test cannot be automated). -/
theorem C3_amended :
    get_priority_category 90 true = "Highest" ∧
    get_priority_category 89.9 true = "High" ∧
    get_priority_category 39.9 true = "Lowest" ∧
    ∀ X : ℚ, get_priority_category X false = "Can't Automate" := by
  refine ⟨?_, ?_, ?_, fun X => rfl⟩
  · unfold get_priority_category
    norm_num
  · unfold get_priority_category
    norm_num
  · unfold get_priority_category
    norm_num

/-- C5.  Override dominance: whenever a scores dict has can_be_automated = 1,
calculate_score returns (0, 0) without consulting any other factor; a test
stored through update_test with such scores gets raw_score 0, total_score 0
and priority Wont-Automate; and a test built by import_tests from a record
whose resolved can_be_automated score is 1 likewise, regardless of all other
factor values. -/
theorem C5_override_dominance :
    (∀ sc : Scores, sc .can_be_automated = some 1 → calculate_score sc = (0, 0)) ∧
    (∀ (s : ModelState) (tid : TestId) (n sec d tk : String) (sc : Scores)
        (yns : Option (List (String × Bool))) (t' : Test),
      sc .can_be_automated = some 1 →
      (update_test s tid n sec d tk sc yns).1 = some t' →
      t'.raw_score = 0 ∧ t'.total_score = 0 ∧ t'.priority = "Won't Automate") ∧
    (∀ (cid : Int) (r : Record),
      (importScores r) .can_be_automated = some 1 →
      (recordToTest cid r).raw_score = 0 ∧ (recordToTest cid r).total_score = 0 ∧
        (recordToTest cid r).priority = "Won't Automate") := by
  refine ⟨?_, ?_, ?_⟩
  · intro sc h
    unfold calculate_score
    rw [if_pos h]
  · intro s tid n sec d tk sc yns t' h1 h2
    unfold update_test at h2
    rcases hr : (updateFirstBy (fun t => t.id = tid) (applyUpdate n sec d tk sc yns) s.tests).2 with _ | ⟨old, newT⟩
    · simp [hr] at h2
    · simp only [hr] at h2
      injection h2 with h2
      obtain ⟨-, hnewT, -⟩ := updateFirstBy_found hr
      rw [← h2, hnewT]
      unfold applyUpdate
      rw [if_pos h1]
      exact ⟨rfl, rfl, rfl⟩
  · intro cid r h
    simp only [recordToTest]
    rw [if_pos h]
    refine ⟨rfl, ?_, rfl⟩
    show roundTo1 0 = 0
    simp [roundTo1]

/-- The pre-existing test of the C5 witness state. -/
def c5t0 : Test :=
  { id := Sum.inl 1
    name := "t"
    sect := "A"
    ticket_id := ""
    description := ""
    scores := scoresYes3
    yes_no_answers := some []
    raw_score := 42
    total_score := 60
    priority := "Medium" }

/-- A one-test state used to witness the C5 update branch. -/
def c5Base : ModelState := ⟨[c5t0], 2, {"A"}⟩

/-- The updated test of the C5 witness. -/
def c5t1 : Test := applyUpdate "t" "A" "" "" scoresNo5 none c5t0

/-- A raw record resolving to can_be_automated = 1 with every other factor 5. -/
def c5Record : Record :=
  [("Can it be Automated", "1"), ("Regression Frequency", "5"),
   ("Customer Impact", "5"), ("Manual Test Effort", "5"),
   ("Automation Complexity", "5"), ("Existing Framework", "5"),
   ("Angular Framework", "5"), ("Repetitive", "5"), ("Test Name", "w")]

/-- C5 witness: the three override branches at concrete inputs. -/
theorem C5_override_dominance_witness :
    calculate_score scoresNo5 = (0, 0) ∧
    (c5t1.raw_score = 0 ∧ c5t1.total_score = 0 ∧ c5t1.priority = "Won't Automate") ∧
    ((recordToTest 1 c5Record).raw_score = 0 ∧ (recordToTest 1 c5Record).total_score = 0 ∧
      (recordToTest 1 c5Record).priority = "Won't Automate") := by
  refine ⟨C5_override_dominance.1 scoresNo5 (by decide),
    C5_override_dominance.2.1 c5Base (Sum.inl 1) "t" "A" "" "" scoresNo5 none c5t1
      (by decide) rfl,
    C5_override_dominance.2.2 1 c5Record (by decide)⟩

/-- State after adding one test in section "A" to the fresh model. -/
def c2State1 : ModelState :=
  (add_test initialState "t1" "A" "" "" scoresYes3 none none).2

/-- State after updating that test's section to the empty string. -/
def c2State2 : ModelState :=
  (update_test c2State1 (Sum.inl 1) "t1" "" "" "" scoresYes3 none).2

/-- C2 counterexample.  The claim says updating a test's section to the empty
string removes the old section from the set when no other live test
references it; after add(section "A") and update(section ""), "A" is still
tracked although no live test carries it (the cleanup at
src/models/prioritization.py lines 137-141 only runs when the new section is
non-empty). -/
theorem C2_counterexample :
    "A" ∈ c2State2.sections ∧ ∀ t ∈ c2State2.tests, t.sect ≠ "A" := by
  decide

/-- C2 amended.  After any sequence of add/update/delete operations the
sections set contains every distinct non-empty section among live tests (no
missing entries); updating a test's section to the empty string leaves the
sections set entirely unchanged (so the old section can stay behind as an
orphan); and when a found test's section changes to a different non-empty
value, the old non-empty section remains tracked exactly when some live test
still carries it. -/
theorem C2_amended :
    (∀ ops : List Op, sectionsSuperset (runOps ops)) ∧
    (∀ (s : ModelState) (tid : TestId) (n d tk : String) (sc : Scores)
        (yns : Option (List (String × Bool))),
      (update_test s tid n "" d tk sc yns).2.sections = s.sections) ∧
    (∀ (s : ModelState) (tid : TestId) (n sec d tk : String) (sc : Scores)
        (yns : Option (List (String × Bool))) (old newT : Test),
      sectionsSuperset s →
      (updateFirstBy (fun t => t.id = tid) (applyUpdate n sec d tk sc yns) s.tests).2 =
        some (old, newT) →
      sec ≠ "" → sec ≠ old.sect → old.sect ≠ "" →
      (old.sect ∈ (update_test s tid n sec d tk sc yns).2.sections ↔
        ∃ u ∈ (update_test s tid n sec d tk sc yns).2.tests, u.sect = old.sect)) := by
  refine ⟨sectionsSuperset_runOps, ?_, ?_⟩
  · intro s tid n d tk sc yns
    unfold update_test
    rcases hr : (updateFirstBy (fun t => t.id = tid) (applyUpdate n "" d tk sc yns) s.tests).2 with _ | ⟨old, newT⟩
    · simp [hr]
    · simp only [hr]
      have hc1 : ¬("" ≠ "" ∧ "" ≠ old.sect) := by simp
      rw [if_neg hc1]
  · intro s tid n sec d tk sc yns old newT hsup hfound hsec hne hold
    unfold update_test
    simp only [hfound]
    have hc1 : sec ≠ "" ∧ sec ≠ old.sect := ⟨hsec, hne⟩
    by_cases hc2 : old.sect ≠ "" ∧ ∀ t ∈ (updateFirstBy (fun t => t.id = tid) (applyUpdate n sec d tk sc yns) s.tests).1, t.sect ≠ old.sect
    · rw [if_pos hc1, if_pos hc2]
      constructor
      · intro hmem
        exact absurd rfl (Finset.mem_erase.mp hmem).1
      · rintro ⟨u, hu, husec⟩
        exact absurd husec (hc2.2 u hu)
    · rw [if_pos hc1, if_neg hc2]
      push_neg at hc2
      rcases hc2 hold with ⟨u, hu, husec⟩
      constructor
      · intro _
        exact ⟨u, hu, husec⟩
      · intro _
        exact Finset.mem_insert_of_mem (hsup old (updateFirstBy_found hfound).1 hold)

/-- The test updated in the C2 witness. -/
def c2wOld : Test :=
  { id := Sum.inl 1
    name := "u"
    sect := "A"
    ticket_id := ""
    description := ""
    scores := scoresYes3
    yes_no_answers := some []
    raw_score := 42
    total_score := 60
    priority := "Medium" }

/-- A one-test state whose only live section is "A". -/
def c2wBase : ModelState := ⟨[c2wOld], 2, {"A"}⟩

/-- The C2 witness update image of c2wOld. -/
def c2wNew : Test := applyUpdate "u" "B" "" "" scoresYes3 none c2wOld

/-- C2 witness: the three amended statements at concrete inputs. -/
theorem C2_amended_witness :
    sectionsSuperset (runOps [Op.add "t1" "A" "" "" scoresYes3 none none]) ∧
    (update_test c2wBase (Sum.inl 1) "u" "" "" "" scoresYes3 none).2.sections =
      c2wBase.sections ∧
    ("A" ∈ (update_test c2wBase (Sum.inl 1) "u" "B" "" "" scoresYes3 none).2.sections ↔
      ∃ u ∈ (update_test c2wBase (Sum.inl 1) "u" "B" "" "" scoresYes3 none).2.tests,
        u.sect = "A") := by
  refine ⟨C2_amended.1 [Op.add "t1" "A" "" "" scoresYes3 none none],
    C2_amended.2.1 c2wBase (Sum.inl 1) "u" "" "" scoresYes3 none, ?_⟩
  have h := C2_amended.2.2 c2wBase (Sum.inl 1) "u" "B" "" "" scoresYes3 none
    c2wOld c2wNew (by decide) rfl (by decide) (by decide) (by decide)
  exact h

/-- C4 counterexample.  The claim includes imports of records lacking a
"Test ID" field; importing two such records in one call assigns both the
entry counter value (the counter is only advanced after the loop,
src/models/prioritization.py lines 373 and 410), so the live ids collide. -/
theorem C4_counterexample :
    ((import_tests initialState [[], []] false).2.tests.map Test.id =
      [Sum.inl 1, Sum.inl 1]) ∧
    ¬ ((import_tests initialState [[], []] false).2.tests.map Test.id).Nodup := by
  decide

/-- C4 amended.  After any sequence of addTest, updateTest, deleteOne and
deleteAll calls all live test ids are pairwise distinct; import_tests can
break uniqueness (see the counterexample: same-batch records without a
"Test ID" all receive the fixed counter value, and a record carrying an
already-live id collides with it). -/
theorem C4_amended : ∀ ops : List Op, idsNodup (runOps ops) :=
  fun ops => (idInv_runOps ops).1

/-- A concrete stored test used by the C6 counterexample. -/
def c6Test : Test :=
  { id := Sum.inl 1
    name := "t1"
    sect := "A"
    ticket_id := ""
    description := ""
    scores := scoresYes3
    yes_no_answers := some []
    raw_score := 42
    total_score := 60
    priority := "Medium" }

/-- A one-test repository state for the C6 counterexample. -/
def c6State : ModelState := ⟨[c6Test], 2, {"A"}⟩

/-- C6 counterexample.  The claim says the returned display thresholds are
the classifier boundaries 90/80/60/40 as percentages of 100; on a one-test
state the code returns highest_threshold 85 (not 90) and high_threshold 70
(not 80), src/models/prioritization.py lines 287-294. -/
theorem C6_counterexample :
    (get_priority_tiers c6State none).highest_threshold = 85 ∧
    (get_priority_tiers c6State none).highest_threshold ≠ 90 ∧
    (get_priority_tiers c6State none).high_threshold = 70 ∧
    (get_priority_tiers c6State none).high_threshold ≠ 80 := by
  refine ⟨?_, ?_, ?_, ?_⟩ <;>
    norm_num [get_priority_tiers, filteredTests, c6State]

/-- C6 amended.  For every repository state and optional section filter,
get_priority_tiers partitions the sorted filtered tests into the six tier
lists solely by each test's stored priority string, and the display
threshold constants are 85/70/55/40/20 percent of the 100-point maximum on a
non-empty filtered list (all 0 on an empty one). -/
theorem C6_amended : ∀ (s : ModelState) (f : Option String),
    (get_priority_tiers s f).highest =
      (get_sorted_tests s f).filter (fun t => t.priority = "Highest") ∧
    (get_priority_tiers s f).high =
      (get_sorted_tests s f).filter (fun t => t.priority = "High") ∧
    (get_priority_tiers s f).medium =
      (get_sorted_tests s f).filter (fun t => t.priority = "Medium") ∧
    (get_priority_tiers s f).low =
      (get_sorted_tests s f).filter (fun t => t.priority = "Low") ∧
    (get_priority_tiers s f).lowest =
      (get_sorted_tests s f).filter (fun t => t.priority = "Lowest") ∧
    (get_priority_tiers s f).wont_automate =
      (get_sorted_tests s f).filter (fun t => t.priority = "Won't Automate") ∧
    (get_priority_tiers s f).highest_threshold =
      (if (filteredTests s f).isEmpty then 0 else 85) ∧
    (get_priority_tiers s f).high_threshold =
      (if (filteredTests s f).isEmpty then 0 else 70) ∧
    (get_priority_tiers s f).medium_threshold =
      (if (filteredTests s f).isEmpty then 0 else 55) ∧
    (get_priority_tiers s f).low_threshold =
      (if (filteredTests s f).isEmpty then 0 else 40) ∧
    (get_priority_tiers s f).lowest_threshold =
      (if (filteredTests s f).isEmpty then 0 else 20) ∧
    (get_priority_tiers s f).max_score =
      (if (filteredTests s f).isEmpty then 0 else 100) := by
  intro s f
  by_cases he : (filteredTests s f).isEmpty
  · have hnil : filteredTests s f = [] := by rwa [List.isEmpty_iff] at he
    unfold get_priority_tiers
    rw [if_pos he]
    unfold get_sorted_tests
    rw [hnil]
    simp [sortTests, he]
  · unfold get_priority_tiers
    rw [if_neg he]
    refine ⟨rfl, rfl, rfl, rfl, rfl, rfl, ?_, ?_, ?_, ?_, ?_, ?_⟩ <;>
      rw [if_neg he] <;> norm_num

/-- The single record (without a "Test ID" field) of the C7 counterexample. -/
def c7Records : List Record := [[]]

/-- C7 counterexample.  Importing one record lacking "Test ID" twice with
replace=true assigns the test id 1 after the first call and id 2 after the
second (the id comes from the counter, which the first call advanced), so
the two states differ on an id the claim compares. -/
theorem C7_counterexample :
    ((import_tests initialState c7Records true).2.tests.map Test.id = [Sum.inl 1]) ∧
    ((import_tests (import_tests initialState c7Records true).2 c7Records true).2.tests.map
        Test.id = [Sum.inl 2]) := by
  decide

/-- C7 amended.  Importing the same records twice with replace=true yields
the same tests list compared field by field ignoring ids (name, section,
description, ticket id, scores, raw score, total score, priority); and for
every record of the batch that carries a "Test ID" field — also in mixed
batches — the corresponding test stores that imported value verbatim as its
id in both the once-imported and the twice-imported state, so those ids
agree; only records lacking the field get counter-assigned ids, which may
differ between the two calls. -/
theorem C7_amended : ∀ (records : List Record) (s : ModelState),
    ((import_tests (import_tests s records true).2 records true).2.tests.map testContent =
      (import_tests s records true).2.tests.map testContent) ∧
    (∀ (i : Nat) (r : Record) (v : String),
      records[i]? = some r → recGet r "Test ID" = some v →
      ((import_tests (import_tests s records true).2 records true).2.tests[i]?.map Test.id =
          some (Sum.inr v) ∧
        (import_tests s records true).2.tests[i]?.map Test.id = some (Sum.inr v))) := by
  intro records s
  constructor
  · rw [import_tests_replace_tests, import_tests_replace_tests, List.map_map, List.map_map]
    exact List.map_congr_left (fun r _ => recordToTest_content _ _ r)
  · intro i r v hget hid
    constructor
    · rw [import_tests_replace_tests, List.getElem?_map, hget]
      simp [recordToTest_id_of_testID _ r v hid]
    · rw [import_tests_replace_tests, List.getElem?_map, hget]
      simp [recordToTest_id_of_testID _ r v hid]

/-- The mixed-batch record list of the C7 witness: the first record carries a
"Test ID", the second does not. -/
def c7wRecords : List Record := [[("Test ID", "7"), ("Test Name", "a")], []]

/-- C7 witness: in a mixed batch the record carrying "Test ID" keeps the
imported id "7" in both the once-imported and the twice-imported state. -/
theorem C7_amended_witness :
    (import_tests (import_tests initialState c7wRecords true).2 c7wRecords true).2.tests[0]?.map
        Test.id = some (Sum.inr "7") ∧
    (import_tests initialState c7wRecords true).2.tests[0]?.map Test.id =
      some (Sum.inr "7") :=
  (C7_amended c7wRecords initialState).2 0 [("Test ID", "7"), ("Test Name", "a")] "7"
    (by decide) (by decide)

/-- A concrete stored test used by the C8 counterexample. -/
def c8Test : Test :=
  { id := Sum.inl 1
    name := "t1"
    sect := "A"
    ticket_id := ""
    description := ""
    scores := scoresYes3
    yes_no_answers := some []
    raw_score := 42
    total_score := 60
    priority := "Medium" }

/-- A one-test repository state for the C8 counterexample. -/
def c8State : ModelState := ⟨[c8Test], 2, {"A"}⟩

/-- C8 counterexample.  The claim says get_sorted_tests returns exactly the
tests whose section equals the filter; with the empty-string filter the code
returns a test whose section is "A" (Python truthiness makes an empty filter
select everything, src/models/prioritization.py line 230). -/
theorem C8_counterexample :
    ∃ t ∈ get_sorted_tests c8State (some ""), t.sect ≠ "" := by
  decide

/-- C8 amended.  get_sorted_tests returns a permutation of the filtered
tests sorted by tier rank ascending and total score descending within a
tier (testLE, with rank Highest 0, High 1, Medium 2, Low 3, Lowest 4,
Wont-Automate 5); the filter selects the tests whose section equals the
filter string when it is non-empty, and the whole collection when the
filter is absent or the empty string. -/
theorem C8_amended : ∀ (s : ModelState) (f : Option String),
    (get_sorted_tests s f).Perm (filteredTests s f) ∧
    (get_sorted_tests s f).Pairwise testLE ∧
    filteredTests s none = s.tests ∧
    (∀ p : String, filteredTests s (some p) =
      if p = "" then s.tests else s.tests.filter (fun t => t.sect = p)) ∧
    priority_order "Highest" = 0 ∧ priority_order "High" = 1 ∧
    priority_order "Medium" = 2 ∧ priority_order "Low" = 3 ∧
    priority_order "Lowest" = 4 ∧ priority_order "Won't Automate" = 5 := by
  intro s f
  refine ⟨sortTests_perm _, sortTests_pairwise _, rfl, ?_, by decide, by decide,
    by decide, by decide, by decide, by decide⟩
  intro p
  unfold filteredTests
  by_cases hp : p = ""
  · simp [hp]
  · simp [hp]

/-- C9.  Import score resolution: for each known factor the display name is
looked up in the record and the value parsed as an integer; a present
parseable value is used as is, and a missing field or failed parse falls
back to the default, 5 for can_be_automated and 3 for every other factor; no
record is rejected: the returned count is the raw record count and every
record contributes exactly one stored test. -/
theorem C9_import_defaults :
    (∀ (r : Record) (k : FactorKey) (v : String) (n : Int),
      recGet r (displayName k) = some v → pyInt v = some n →
      importScores r k = some n) ∧
    (∀ (r : Record) (k : FactorKey) (v : String),
      recGet r (displayName k) = some v → pyInt v = none →
      importScores r k = some (importDefault k)) ∧
    (∀ (r : Record) (k : FactorKey),
      recGet r (displayName k) = none → importScores r k = some (importDefault k)) ∧
    (importDefault FactorKey.can_be_automated = 5 ∧
      ∀ k : FactorKey, k ≠ FactorKey.can_be_automated → importDefault k = 3) ∧
    (∀ (s : ModelState) (records : List Record) (b : Bool),
      (import_tests s records b).1 = records.length ∧
      (import_tests s records b).2.tests.length =
        (if b then 0 else s.tests.length) + records.length) := by
  refine ⟨?_, ?_, ?_, ⟨rfl, ?_⟩, ?_⟩
  · intro r k v n h1 h2
    simp [importScores, h1, h2]
  · intro r k v h1 h2
    simp [importScores, h1, h2]
  · intro r k h
    simp [importScores, h]
  · intro k hk
    unfold importDefault
    rw [if_neg hk]
  · intro s records b
    exact ⟨import_tests_count s records b, import_tests_tests_length s records b⟩

/-- The spec scenario record: one malformed field, no automatability field. -/
def c9Record : Record := [("Regression Frequency", "oops")]

/-- C9 witness: the defaulting and counting statements at a concrete
malformed record. -/
theorem C9_import_defaults_witness :
    importScores c9Record FactorKey.regression_frequency =
      some (importDefault FactorKey.regression_frequency) ∧
    importScores c9Record FactorKey.can_be_automated =
      some (importDefault FactorKey.can_be_automated) ∧
    (import_tests initialState [c9Record] false).1 = 1 :=
  ⟨C9_import_defaults.2.1 c9Record FactorKey.regression_frequency "oops"
      (by decide) (by decide),
    C9_import_defaults.2.2.1 c9Record FactorKey.can_be_automated (by decide),
    (C9_import_defaults.2.2.2.2 initialState [c9Record] false).1⟩

/-- C10.  import_tests never decreases the id counter; with replace=true it
rebuilds the tests from the records alone and the sections from scratch
(clearing both first), and the no-record replace import leaves the counter
exactly unchanged; only delete_all_tests resets the counter to 1, and only
when the collection was non-empty. -/
theorem C10_import_counter_frame :
    (∀ (s : ModelState) (records : List Record) (b : Bool),
      s.current_id ≤ (import_tests s records b).2.current_id) ∧
    (∀ (s : ModelState) (records : List Record),
      (import_tests s records true).2.tests = records.map (recordToTest s.current_id)) ∧
    (∀ (s : ModelState) (records : List Record),
      (import_tests s records true).2.sections =
        (import_tests initialState records true).2.sections) ∧
    (∀ s : ModelState, (import_tests s [] true).2 = ⟨[], s.current_id, ∅⟩) ∧
    (∀ s : ModelState, (delete_all_tests s).2.current_id =
      if s.tests.isEmpty then s.current_id else 1) := by
  refine ⟨import_tests_counter_mono, import_tests_replace_tests, ?_, ?_, ?_⟩
  · intro s records
    unfold import_tests
    simp only [if_true]
    exact import_fold_sections records s.current_id initialState.current_id
      ([], ∅, s.current_id) ([], ∅, initialState.current_id) rfl
  · intro s
    rfl
  · intro s
    unfold delete_all_tests
    by_cases he : s.tests.isEmpty
    · rw [if_pos he, if_pos he]
    · rw [if_neg he, if_neg he]

end APM

